import Mathlib

/-!
Verification development for the MHMS CCTV monitoring subsystem
(`backend/services/cctv_monitoring_service.py` and
`backend/services/sentiment_analysis_service.py`).

Numeric scores are modelled as rationals (`ℚ`); Python dictionaries keyed
by `force_id` are modelled as association lists; the camera, database and
wall clock are modelled as explicit parameters supplied by the caller.
-/

namespace MHMS

/-- Arithmetic mean of a list of rationals: `sum(l) / len(l)`
(and Python's `statistics.mean` on a non-empty list). -/
def listMean (l : List ℚ) : ℚ := l.sum / (l.length : ℚ)

/-- Python's `abs` on rationals, written so the kernel can evaluate it. -/
def pyAbs (q : ℚ) : ℚ := if q < 0 then -q else q

theorem pyAbs_eq_abs (q : ℚ) : pyAbs q = |q| := by
  unfold pyAbs
  split
  · exact (abs_of_neg (by assumption)).symm
  · exact (abs_of_nonneg (by linarith [not_lt.mp (by assumption)])).symm

/-- Minimum of a list (`min(l)` in Python, 0 on the empty list, unused there). -/
def listMin : List ℚ → ℚ
  | [] => 0
  | x :: xs => xs.foldl min x

/-- Maximum of a list (`max(l)` in Python, 0 on the empty list, unused there). -/
def listMax : List ℚ → ℚ
  | [] => 0
  | x :: xs => xs.foldl max x

/-- Embedding of `calculate_peak_weighted_average` from
`cctv_monitoring_service.py` (lines 61-113): empty input gives 0.0, a
single score is returned unchanged, otherwise scores deviating from the
neutral baseline 0.45 by at least 0.12 are averaged separately and
weighted 70/30 against the overall mean. -/
def calculate_peak_weighted_average (scores : List ℚ) : ℚ :=
  if scores.isEmpty then 0
  else if scores.length == 1 then scores.headI
  else
    let NEUTRAL_BASELINE : ℚ := 45/100
    let SIGNIFICANCE_THRESHOLD : ℚ := 12/100
    let overall_avg : ℚ := scores.sum / (scores.length : ℚ)
    let significant_scores : List ℚ :=
      scores.filter (fun score => decide (SIGNIFICANCE_THRESHOLD ≤ pyAbs (score - NEUTRAL_BASELINE)))
    if !significant_scores.isEmpty then
      let peak_avg : ℚ := significant_scores.sum / (significant_scores.length : ℚ)
      peak_avg * (7/10) + overall_avg * (3/10)
    else
      overall_avg

/-- Reference definition of the visual peak-weighted average, written from
the spec's words (section 4.3): 0 or 1 input returns 0.0 or the single
value; otherwise `significant` is the subset with `|score - 0.45| ≥ 0.12`
and the result is `0.7·mean(significant) + 0.3·mean(all)` when
`significant` is non-empty, else `mean(all)`. -/
def peakWeightedAverageSpec (scores : List ℚ) : ℚ :=
  match scores with
  | [] => 0
  | [x] => x
  | _ =>
    let overall_avg := listMean scores
    let significant := scores.filter (fun s => decide ((12:ℚ)/100 ≤ pyAbs (s - 45/100)))
    if significant.isEmpty then overall_avg
    else (7/10) * listMean significant + (3/10) * overall_avg

/-- Embedding of `calculate_peak_weighted_nlp_average` from
`sentiment_analysis_service.py` (lines 91-147): `None` entries are
discarded first; no remaining value gives 0.0, one remaining value is
returned unchanged, otherwise values at or above the 0.65 high-risk
threshold are averaged separately and weighted 80/20 against the overall
mean of the present values. -/
def calculate_peak_weighted_nlp_average (scores : List (Option ℚ)) : ℚ :=
  if scores.isEmpty then 0
  else
    let valid_scores : List ℚ := scores.filterMap id
    if valid_scores.isEmpty then 0
    else if valid_scores.length == 1 then valid_scores.headI
    else
      let HIGH_RISK_THRESHOLD : ℚ := 65/100
      let overall_avg : ℚ := listMean valid_scores
      let high_risk_scores : List ℚ :=
        valid_scores.filter (fun score => decide (HIGH_RISK_THRESHOLD ≤ score))
      if !high_risk_scores.isEmpty then
        (listMean high_risk_scores) * (8/10) + overall_avg * (2/10)
      else
        overall_avg

/-- Reference definition of the NLP peak-weighted average, written from
the spec's words (section 4.3): after discarding absent entries, 0 values
give 0.0 and 1 value is returned unchanged; otherwise `high_risk` is the
subset with `score ≥ 0.65` and the result is
`0.8·mean(high_risk) + 0.2·mean(present)` when `high_risk` is non-empty,
else `mean(present)`. -/
def nlpPeakWeightedSpec (scores : List (Option ℚ)) : ℚ :=
  match scores.filterMap id with
  | [] => 0
  | [x] => x
  | present =>
    let overall_avg := listMean present
    let high_risk := present.filter (fun s => decide ((65:ℚ)/100 ≤ s))
    if high_risk.isEmpty then overall_avg
    else (8/10) * listMean high_risk + (2/10) * overall_avg

/-- One detection event as buffered by the service: the `score`,
`emotion` and `timestamp` entries of the Python dict appended in
`process_frame` / the survey worker loops (the opaque `face_coords` /
`force_id` / `method` entries carry no information the service reads back
and are not modelled). -/
structure Detection where
  score : ℚ
  emotion : String
  timestamp : ℚ
deriving DecidableEq, Repr

/-- Result of probing the two fixed camera indices: whether `isOpened`
succeeded and whether the test `read` returned a frame, for index 1
(external) and index 0 (built-in). -/
structure CameraEnv where
  opens1 : Bool
  reads1 : Bool
  opens0 : Bool
  reads0 : Bool
deriving DecidableEq, Repr

/-- Embedding of `CCTVMonitoringService._find_available_camera` (lines
151-196): try index 1 first, accept only if it opened and a test read
returned a frame; otherwise release and try index 0 the same way;
otherwise return `None`. -/
def find_available_camera (env : CameraEnv) : Option Nat :=
  if env.opens1 && env.reads1 then some 1
  else if env.opens0 && env.reads0 then some 0
  else none

/-- The mutable attributes of `CCTVMonitoringService` that the claims
touch. Attributes that Python creates and deletes dynamically
(`survey_force_id`, `survey_detections`, `survey_start_time`) are
`Option`s, `none` standing for the attribute being absent. Threads and
the OpenCV window are external effects and are not part of the state. -/
structure ServiceState where
  monitoring_id : Option Nat
  cap : Option Nat
  is_monitoring : Bool
  detection_buffer : List (String × List Detection)
  last_average_time : List (String × ℚ)
  survey_monitoring : Bool
  survey_mode : Bool
  survey_thread_active : Bool
  survey_force_id : Option String
  survey_detections : Option (List Detection)
  survey_start_time : Option ℚ
deriving DecidableEq, Repr

/-- The state `CCTVMonitoringService.__init__` builds. -/
def initialState : ServiceState :=
  { monitoring_id := none
    cap := none
    is_monitoring := false
    detection_buffer := []
    last_average_time := []
    survey_monitoring := false
    survey_mode := false
    survey_thread_active := false
    survey_force_id := none
    survey_detections := none
    survey_start_time := none }

/-- Outcome of `start_monitoring`: the guard's `False` return, the
successful `True` return, or the two exception paths. -/
inductive StartOutcome where
  | rejected
  | started
  | noCameraFailure
  | dbFailure
deriving DecidableEq, Repr

/-- Embedding of `CCTVMonitoringService.start_monitoring` (lines 242-315).
`env` is the camera probe behaviour, `dbOk` whether the session insert
commits, `newId` the id the database hands back. The guard returns
`False` when `is_monitoring` is already set; a previously held camera
handle is released before probing; camera or database failure raises
after the cleanup block has reset `cap`, `is_monitoring` and
`monitoring_id`. -/
def start_monitoring (s : ServiceState) (env : CameraEnv) (dbOk : Bool) (newId : Nat) :
    StartOutcome × ServiceState :=
  if s.is_monitoring then (.rejected, s)
  else
    let s1 := { s with cap := none }
    match find_available_camera env with
    | none => (.noCameraFailure, { s1 with is_monitoring := false, monitoring_id := none })
    | some h =>
      if dbOk then
        (.started, { s1 with cap := some h, monitoring_id := some newId, is_monitoring := true })
      else
        (.dbFailure, { s1 with is_monitoring := false, monitoring_id := none })

/-- The block of attribute writes `start_survey_monitoring` performs once
a camera handle is in place (lines 679-693). -/
def startSurveyState (s : ServiceState) (fid : String) (now : ℚ) : ServiceState :=
  { s with survey_force_id := some fid
           survey_detections := some []
           survey_monitoring := true
           survey_thread_active := true
           survey_start_time := some now
           survey_mode := true }

/-- Embedding of `CCTVMonitoringService.start_survey_monitoring` (lines
632-705). There is no idle-guard: an existing camera handle is reused,
otherwise the camera is probed; on failure the except-block clears only
`survey_monitoring` and returns `False`; on success the survey attributes
are (re)initialised — including resetting `survey_detections` to the
empty list — and `True` is returned. -/
def start_survey_monitoring (s : ServiceState) (env : CameraEnv) (fid : String) (now : ℚ) :
    Bool × ServiceState :=
  match s.cap with
  | some _ => (true, startSurveyState s fid now)
  | none =>
    match find_available_camera env with
    | none => (false, { s with survey_monitoring := false })
    | some h => (true, startSurveyState { s with cap := some h } fid now)

/-- Python's `max(iterable, key=key)` accumulator: replace the current
best only on a strictly greater key, so the earliest element in iteration
order wins ties. -/
def pyMaxAux (key : String → Nat) : String → List String → String
  | best, [] => best
  | best, x :: xs => pyMaxAux key (if key best < key x then x else best) xs

/-- Python's `max(l, key=key)` over a non-empty iteration order `l`
(`none` on the empty iterable, where Python would raise `ValueError`). -/
def pyMaxKey (key : String → Nat) : List String → Option String
  | [] => none
  | x :: xs => some (pyMaxAux key x xs)

/-- Modelled from the spec: the mode of a list of labels with ties broken
by the label seen first in event order — Python's `max` with the count
key over the distinct labels in first-occurrence order. -/
def firstSeenMode (ems : List String) : Option String :=
  pyMaxKey (fun e => ems.count e) ems.dedup

/-- State cleanup performed by the `finally:` block of
`stop_survey_monitoring` (lines 911-960): stop flags, release the camera
handle, clear survey mode and delete the survey attributes. It runs on
every path out of the function. -/
def surveyCleanup (s : ServiceState) : ServiceState :=
  { s with survey_monitoring := false
           survey_thread_active := false
           cap := none
           survey_mode := false
           survey_force_id := none
           survey_detections := none }

/-- The dict returned by `stop_survey_monitoring` when detections exist. -/
structure SurveyResults where
  force_id : String
  session_id : Option Nat
  avg_depression_score : ℚ
  dominant_emotion : String
  detection_count : Nat
  detections : List Detection
deriving DecidableEq, Repr

/-- The three shapes of dict `stop_survey_monitoring` can return: the
early "no monitoring session active" message, the full results dict, and
the zero-detection dict ("no emotion data collected"), which carries a
score, a dominant-emotion marker and a count but no detections list. -/
inductive StopSurveyOutcome where
  | notActive (force_id : String)
  | results (r : SurveyResults)
  | noData (force_id : String) (session_id : Option Nat) (avg_depression_score : ℚ)
      (dominant_emotion : String) (detection_count : Nat)
deriving DecidableEq, Repr

/-- The `dominant_emotion` entry of a stop-survey dict, when present. -/
def StopSurveyOutcome.dominantLabel : StopSurveyOutcome → Option String
  | .notActive _ => none
  | .results r => some r.dominant_emotion
  | .noData _ _ _ d _ => some d

/-- Embedding of `CCTVMonitoringService.stop_survey_monitoring` (lines
829-960). `order` is the iteration order of the Python set
`set(emotions)` — an unspecified permutation of the distinct emotion
labels — consumed by `max(set(emotions), key=emotions.count)`. Every
buffered detection dict carries `score` and `emotion` entries, so the
`actual_detections` filter keeps all of them. The `finally:` cleanup
applies on every path. -/
def stop_survey_monitoring (s : ServiceState) (fid : String) (sid : Option Nat)
    (order : List String) : StopSurveyOutcome × ServiceState :=
  if !s.survey_monitoring then (.notActive fid, surveyCleanup s)
  else
    match s.survey_detections with
    | some (d :: ds) =>
      let dets := d :: ds
      let actual_detections := dets
      let scores := actual_detections.map Detection.score
      let avg_score := calculate_peak_weighted_average scores
      let emotions := actual_detections.map Detection.emotion
      let most_common_emotion := (pyMaxKey (fun e => emotions.count e) order).getD "Neutral"
      (.results
        { force_id := fid
          session_id := sid
          avg_depression_score := avg_score
          dominant_emotion := most_common_emotion
          detection_count := dets.length
          detections := dets },
       surveyCleanup s)
    | _ => (.noData fid sid 0 "No Detection" 0, surveyCleanup s)

/-- Python dict update `m[k] = v` on an association list. -/
def setEntry {α : Type} : List (String × α) → String → α → List (String × α)
  | [], k, v => [(k, v)]
  | (k', v') :: rest, k, v =>
    if k' == k then (k, v) :: rest else (k', v') :: setEntry rest k v

/-- Embedding of `CCTVMonitoringService._calculate_and_store_average`
(lines 480-525). `storeOk` is whether the `cctv_detections` insert
commits. The second component is the score row handed to persistence
(`none` when nothing was stored). On an empty buffer the method returns
at once; on a persistence failure the outer except-block returns with the
buffer and `last_average_time` untouched; only after a successful store
are the buffer cleared and the flush time advanced. -/
def calculate_and_store_average (s : ServiceState) (fid : String) (current_time : ℚ)
    (storeOk : Bool) : ServiceState × Option ℚ :=
  let buffer := ((s.detection_buffer.lookup fid).getD [])
  if buffer.isEmpty then (s, none)
  else
    let scores := buffer.map Detection.score
    let avg_score := calculate_peak_weighted_average scores
    if storeOk then
      ({ s with detection_buffer := setEntry s.detection_buffer fid []
                last_average_time := setEntry s.last_average_time fid current_time },
       some avg_score)
    else
      (s, none)

/-- One row of the `cctv_detections` table: the session that wrote it,
the subject, the calendar day of `detection_timestamp`, and the stored
window score. -/
structure DetectionRow where
  monitoring_id : Nat
  force_id : String
  detection_date : Nat
  score : ℚ
deriving DecidableEq, Repr

/-- SQL `AVG(...)`: `NULL` on an empty row set, the arithmetic mean
otherwise. -/
def sqlAvg (l : List ℚ) : Option ℚ :=
  if l.isEmpty then none else some (listMean l)

/-- The scores `stop_monitoring` averages for one subject: every stored
detection for that `force_id` whose `DATE(detection_timestamp)` is the
stop day — with no `monitoring_id` restriction. -/
def dailyScoresFor (rows : List DetectionRow) (fid : String) (today : Nat) : List ℚ :=
  (rows.filter (fun r => r.force_id == fid && r.detection_date == today)).map DetectionRow.score

/-- The scores the session actually recorded for one subject: every
stored detection carrying this session's `monitoring_id` and this
`force_id`. -/
def sessionScoresFor (rows : List DetectionRow) (mid : Nat) (fid : String) : List ℚ :=
  (rows.filter (fun r => r.monitoring_id == mid && r.force_id == fid)).map DetectionRow.score

/-- `SELECT DISTINCT force_id FROM cctv_detections WHERE monitoring_id = mid`
(first-occurrence order). -/
def distinctForceIds (rows : List DetectionRow) (mid : Nat) : List String :=
  ((rows.filter (fun r => r.monitoring_id == mid)).map DetectionRow.force_id).dedup

/-- Embedding of the averaging loop of `CCTVMonitoringService.stop_monitoring`
(lines 317-405): for each distinct subject of this session, compute
`AVG(depression_score)` over all of that subject's detections dated the
stop day, and upsert the non-`NULL` averages into
`daily_depression_scores`. The returned association list is what gets
persisted per subject. -/
def stop_monitoring_daily_averages (rows : List DetectionRow) (mid : Nat) (today : Nat) :
    List (String × ℚ) :=
  (distinctForceIds rows mid).filterMap (fun fid =>
    match sqlAvg (dailyScoresFor rows fid today) with
    | none => none
    | some a => some (fid, a))

/-- A sample buffered detection. -/
def detA : Detection := ⟨7/10, "sad", 0⟩

/-- A detection labelled "happy". -/
def detHappy : Detection := ⟨1/2, "happy", 0⟩

/-- A detection labelled "sad" with the same score. -/
def detSad : Detection := ⟨1/2, "sad", 1⟩

/-- A state in which a survey session is running for subject "A" with the
given buffered detections. -/
def surveyRunningState (dets : List Detection) : ServiceState :=
  { initialState with
      cap := some 1
      survey_monitoring := true
      survey_thread_active := true
      survey_mode := true
      survey_force_id := some "A"
      survey_detections := some dets
      survey_start_time := some 0 }

/-- A state in which a General monitoring session 7 is running. -/
def generalRunningState : ServiceState :=
  { initialState with cap := some 1, is_monitoring := true, monitoring_id := some 7 }

/-- The running General session with one buffered detection for "A". -/
def bufferedState : ServiceState :=
  { generalRunningState with
      detection_buffer := [("A", [detA])]
      last_average_time := [("A", 0)] }

/-- Camera probes on which neither index opens. -/
def envNoCamera : CameraEnv := ⟨false, false, false, false⟩

/-- Camera probes on which both indices open and read. -/
def envBothCameras : CameraEnv := ⟨true, true, true, true⟩

/-- A stored window score for subject "A" written by session 1 on day 0. -/
def rowA1 : DetectionRow := ⟨1, "A", 0, 1/5⟩

/-- A stored window score for subject "A" written by session 2, same day. -/
def rowA2 : DetectionRow := ⟨2, "A", 0, 4/5⟩

theorem pyMaxAux_mem (key : String → Nat) (b : String) (l : List String) :
    pyMaxAux key b l ∈ b :: l := by
  induction l generalizing b with
  | nil => simp [pyMaxAux]
  | cons x xs ih =>
    rw [pyMaxAux]
    rcases List.mem_cons.mp (ih (if key b < key x then x else b)) with h | h
    · rw [h]
      split
      · exact List.mem_cons_of_mem b (List.mem_cons_self x xs)
      · exact List.mem_cons_self b (x :: xs)
    · exact List.mem_cons_of_mem b (List.mem_cons_of_mem x h)

theorem pyMaxAux_ge_init (key : String → Nat) (b : String) (l : List String) :
    key b ≤ key (pyMaxAux key b l) := by
  induction l generalizing b with
  | nil => simp [pyMaxAux]
  | cons x xs ih =>
    rw [pyMaxAux]
    by_cases h : key b < key x
    · rw [if_pos h]
      exact le_trans (le_of_lt h) (ih x)
    · rw [if_neg h]
      exact ih b

theorem pyMaxAux_ge_mem (key : String → Nat) (b : String) (l : List String) :
    ∀ x ∈ l, key x ≤ key (pyMaxAux key b l) := by
  induction l generalizing b with
  | nil => intro x hx; cases hx
  | cons y ys ih =>
    intro x hx
    rw [pyMaxAux]
    rcases List.mem_cons.mp hx with h | h
    · subst h
      by_cases hk : key b < key x
      · rw [if_pos hk]
        exact pyMaxAux_ge_init key x ys
      · rw [if_neg hk]
        exact le_trans (not_lt.mp hk) (pyMaxAux_ge_init key b ys)
    · exact ih _ x h

theorem pyMaxKey_mem_max (key : String → Nat) {l : List String} (hl : l ≠ []) :
    ∃ r, pyMaxKey key l = some r ∧ r ∈ l ∧ ∀ x ∈ l, key x ≤ key r := by
  cases l with
  | nil => exact absurd rfl hl
  | cons x xs =>
    refine ⟨pyMaxAux key x xs, rfl, pyMaxAux_mem key x xs, ?_⟩
    intro y hy
    rcases List.mem_cons.mp hy with h | h
    · subst h
      exact pyMaxAux_ge_init key y xs
    · exact pyMaxAux_ge_mem key x xs y h

theorem lookup_setEntry {α : Type} (m : List (String × α)) (k : String) (v : α) :
    (setEntry m k v).lookup k = some v := by
  induction m with
  | nil => simp [setEntry, List.lookup]
  | cons p rest ih =>
    obtain ⟨k', v'⟩ := p
    rw [setEntry]
    by_cases h : (k' == k) = true
    · rw [if_pos h]
      simp [List.lookup]
    · rw [if_neg h]
      rw [List.lookup]
      have hk : (k == k') = false := by
        have h' : k' ≠ k := by
          intro hh
          exact h (by rw [hh]; exact beq_self_eq_true k)
        exact beq_eq_false_iff_ne.mpr (fun hh => h' hh.symm)
      rw [hk]
      exact ih

theorem foldl_min_le_init (l : List ℚ) (b : ℚ) : l.foldl min b ≤ b := by
  induction l generalizing b with
  | nil => exact le_refl b
  | cons a t ih => exact le_trans (ih (min b a)) (min_le_left b a)

theorem foldl_min_le_mem (l : List ℚ) (b : ℚ) {x : ℚ} (hx : x ∈ l) : l.foldl min b ≤ x := by
  induction l generalizing b with
  | nil => cases hx
  | cons a t ih =>
    rcases List.mem_cons.mp hx with h | h
    · subst h
      exact le_trans (foldl_min_le_init t (min b x)) (min_le_right b x)
    · exact ih (min b a) h

theorem listMin_le_of_mem {l : List ℚ} {x : ℚ} (hx : x ∈ l) : listMin l ≤ x := by
  cases l with
  | nil => cases hx
  | cons a t =>
    rcases List.mem_cons.mp hx with h | h
    · subst h; exact foldl_min_le_init t x
    · exact foldl_min_le_mem t a h

theorem init_le_foldl_max (l : List ℚ) (b : ℚ) : b ≤ l.foldl max b := by
  induction l generalizing b with
  | nil => exact le_refl b
  | cons a t ih => exact le_trans (le_max_left b a) (ih (max b a))

theorem mem_le_foldl_max (l : List ℚ) (b : ℚ) {x : ℚ} (hx : x ∈ l) : x ≤ l.foldl max b := by
  induction l generalizing b with
  | nil => cases hx
  | cons a t ih =>
    rcases List.mem_cons.mp hx with h | h
    · subst h
      exact le_trans (le_max_right b x) (init_le_foldl_max t (max b x))
    · exact ih (max b a) h

theorem le_listMax_of_mem {l : List ℚ} {x : ℚ} (hx : x ∈ l) : x ≤ listMax l := by
  cases l with
  | nil => cases hx
  | cons a t =>
    rcases List.mem_cons.mp hx with h | h
    · subst h; exact init_le_foldl_max t x
    · exact mem_le_foldl_max t a h

theorem mul_len_le_sum (l : List ℚ) (a : ℚ) (h : ∀ x ∈ l, a ≤ x) :
    a * (l.length : ℚ) ≤ l.sum := by
  induction l with
  | nil => simp
  | cons y t ih =>
    have hy : a ≤ y := h y (List.mem_cons_self y t)
    have ht : a * (t.length : ℚ) ≤ t.sum := ih (fun x hx => h x (List.mem_cons_of_mem y hx))
    simp only [List.length_cons, List.sum_cons]
    push_cast
    linarith

theorem sum_le_mul_len (l : List ℚ) (b : ℚ) (h : ∀ x ∈ l, x ≤ b) :
    l.sum ≤ b * (l.length : ℚ) := by
  induction l with
  | nil => simp
  | cons y t ih =>
    have hy : y ≤ b := h y (List.mem_cons_self y t)
    have ht : t.sum ≤ b * (t.length : ℚ) := ih (fun x hx => h x (List.mem_cons_of_mem y hx))
    simp only [List.length_cons, List.sum_cons]
    push_cast
    linarith

theorem listMean_bounds (l : List ℚ) (hne : l ≠ []) (a b : ℚ)
    (ha : ∀ x ∈ l, a ≤ x) (hb : ∀ x ∈ l, x ≤ b) :
    a ≤ listMean l ∧ listMean l ≤ b := by
  have hlen : 0 < (l.length : ℚ) := by
    have := List.length_pos.mpr hne
    exact_mod_cast this
  constructor
  · rw [listMean, le_div_iff₀ hlen]
    exact mul_len_le_sum l a ha
  · rw [listMean, div_le_iff₀ hlen]
    exact sum_le_mul_len l b hb

/-- C2: `calculate_peak_weighted_average` computes exactly the spec's
reference definition for every list of visual emotion scores: 0.0 on the
empty list, the single value on a one-element list, and otherwise the
70/30 peak-weighted combination over the scores deviating from 0.45 by at
least 0.12; in particular `[0.45, 0.45, 0.45]` yields 0.45 and
`[0.45, 0.45, 0.9]` yields 0.81. -/
theorem pwa_matches_spec :
    (∀ scores : List ℚ, calculate_peak_weighted_average scores = peakWeightedAverageSpec scores)
    ∧ calculate_peak_weighted_average [45/100, 45/100, 45/100] = 45/100
    ∧ calculate_peak_weighted_average [45/100, 45/100, 9/10] = 81/100 := by
  refine ⟨fun scores => ?_, ?_, ?_⟩
  · match scores with
    | [] => rfl
    | [x] => simp [calculate_peak_weighted_average, peakWeightedAverageSpec]
    | a :: b :: l =>
      rw [calculate_peak_weighted_average, peakWeightedAverageSpec]
      simp only [List.isEmpty_cons, Bool.false_eq_true, if_false, List.length_cons, listMean]
      have hlen : (l.length + 1 + 1 == 1) = false := by
        simp
      rw [hlen]
      simp only [Bool.false_eq_true, if_false]
      by_cases h :
          (List.filter (fun s => decide ((12:ℚ)/100 ≤ pyAbs (s - 45/100))) (a :: b :: l)).isEmpty
      · simp [h]
      · simp [h]
        ring
      · simp
      · simp
  · norm_num [calculate_peak_weighted_average, pyAbs, List.filter]
  · norm_num [calculate_peak_weighted_average, pyAbs, List.filter]

/-- C3: `calculate_peak_weighted_nlp_average` computes exactly the spec's
reference definition for every list of optional text-derived depression
scores: absent entries are discarded; 0.0 if nothing remains, the single
value if one remains, and otherwise the 80/20 high-risk combination over
the values at or above 0.65; in particular `[0.1, 0.1, 0.9]` yields
`0.8·0.9 + 0.2·(1.1/3)`. -/
theorem nlp_average_matches_spec :
    (∀ scores : List (Option ℚ),
        calculate_peak_weighted_nlp_average scores = nlpPeakWeightedSpec scores)
    ∧ calculate_peak_weighted_nlp_average [some (1/10), some (1/10), some (9/10)]
        = (8/10) * (9/10) + (2/10) * ((11/10) / 3) := by
  refine ⟨fun scores => ?_, ?_⟩
  · rw [calculate_peak_weighted_nlp_average, nlpPeakWeightedSpec]
    by_cases hs : scores.isEmpty
    · have : scores = [] := List.isEmpty_iff.mp hs
      subst this
      simp
    · simp only [hs, Bool.false_eq_true, if_false]
      rcases h : scores.filterMap id with _ | ⟨x, _ | ⟨y, l⟩⟩
      · simp
      · simp
      · simp only [List.isEmpty_cons, Bool.false_eq_true, if_false, List.length_cons]
        have hlen : (l.length + 1 + 1 == 1) = false := by
          simp
        simp only [hlen]
        simp only [Bool.false_eq_true, if_false]
        by_cases hr : (List.filter (fun s => decide ((65:ℚ)/100 ≤ s)) (x :: y :: l)).isEmpty
        · simp [hr]
        · simp [hr]
          ring
  · norm_num [calculate_peak_weighted_nlp_average, listMean, List.filter, List.filterMap]

/-- C6: for every non-empty list of scores, the value returned by
`calculate_peak_weighted_average` lies within `[min(scores), max(scores)]`. -/
theorem pwa_within_min_max (scores : List ℚ) (hne : scores ≠ []) :
    listMin scores ≤ calculate_peak_weighted_average scores ∧
    calculate_peak_weighted_average scores ≤ listMax scores := by
  have hmin : ∀ x ∈ scores, listMin scores ≤ x := fun x hx => listMin_le_of_mem hx
  have hmax : ∀ x ∈ scores, x ≤ listMax scores := fun x hx => le_listMax_of_mem hx
  have hoverall := listMean_bounds scores hne (listMin scores) (listMax scores) hmin hmax
  rw [calculate_peak_weighted_average]
  have hempty : scores.isEmpty = false := by
    cases scores with
    | nil => exact absurd rfl hne
    | cons a t => rfl
  simp only [hempty, Bool.false_eq_true, if_false]
  by_cases h1 : (scores.length == 1) = true
  · simp only [h1, if_true]
    have : ∃ x, scores = [x] := by
      cases scores with
      | nil => exact absurd rfl hne
      | cons a t =>
        cases t with
        | nil => exact ⟨a, rfl⟩
        | cons b u => simp at h1
    obtain ⟨x, hx⟩ := this
    subst hx
    constructor
    · exact listMin_le_of_mem (List.mem_singleton_self x)
    · exact le_listMax_of_mem (List.mem_singleton_self x)
  · simp only [h1, if_false]
    set f := scores.filter
        (fun score => decide ((12:ℚ)/100 ≤ pyAbs (score - 45/100))) with hf
    by_cases hsig : (!f.isEmpty) = true
    · simp only [hsig, if_true, Bool.false_eq_true, if_false]
      have hfne : f ≠ [] := by
        intro hcon
        rw [hcon] at hsig
        simp at hsig
      have hfmin : ∀ x ∈ f, listMin scores ≤ x := by
        intro x hx
        exact listMin_le_of_mem (List.mem_of_mem_filter hx)
      have hfmax : ∀ x ∈ f, x ≤ listMax scores := by
        intro x hx
        exact le_listMax_of_mem (List.mem_of_mem_filter hx)
      have hpeak := listMean_bounds f hfne (listMin scores) (listMax scores) hfmin hfmax
      rw [listMean] at hpeak hoverall
      constructor
      · linarith [hpeak.1, hoverall.1]
      · linarith [hpeak.2, hoverall.2]
    · simp only [hsig, Bool.false_eq_true, if_false]
      rw [listMean] at hoverall
      exact hoverall

/-- Witness for C6 at the concrete input `[0.9, 0.1]`. -/
theorem pwa_within_min_max_witness :
    (([(9:ℚ)/10, 1/10] : List ℚ) ≠ []) ∧
    (listMin [(9:ℚ)/10, 1/10] ≤ calculate_peak_weighted_average [(9:ℚ)/10, 1/10] ∧
     calculate_peak_weighted_average [(9:ℚ)/10, 1/10] ≤ listMax [(9:ℚ)/10, 1/10]) :=
  ⟨by simp, pwa_within_min_max [(9:ℚ)/10, 1/10] (by simp)⟩

/-- C1 counterexample: invoking `start_survey_monitoring` while a survey
session is already running (state non-Idle) is NOT rejected — the call
returns `True` — and it resets the running session's buffered detections
from `[detA]` to `[]`, so the already-running session's state is not
left unchanged. -/
theorem start_survey_while_running_cex :
    (start_survey_monitoring (surveyRunningState [detA]) envNoCamera "B" 5).1 = true
    ∧ (surveyRunningState [detA]).survey_monitoring = true
    ∧ (surveyRunningState [detA]).survey_detections = some [detA]
    ∧ (start_survey_monitoring (surveyRunningState [detA]) envNoCamera "B" 5).2.survey_detections
        = some []
    ∧ some ([] : List Detection) ≠ some [detA] := by
  refine ⟨rfl, rfl, rfl, rfl, ?_⟩
  simp

/-- C1 amended: only `start_monitoring` guards against a running General
session: invoked while `is_monitoring` is set it returns `False` and
leaves the state — camera handle, flags, session id, buffers — entirely
unchanged. (`start_survey_monitoring` has no such guard, and neither
start operation rejects while a survey session is running.) -/
theorem start_monitoring_guard (s : ServiceState) (env : CameraEnv) (dbOk : Bool) (newId : Nat)
    (h : s.is_monitoring = true) :
    start_monitoring s env dbOk newId = (.rejected, s) := by
  simp [start_monitoring, h]

/-- Witness for the amended C1 at a concrete running General session. -/
theorem start_monitoring_guard_witness :
    generalRunningState.is_monitoring = true
    ∧ start_monitoring generalRunningState envBothCameras true 8
        = (.rejected, generalRunningState) :=
  ⟨rfl, start_monitoring_guard generalRunningState envBothCameras true 8 rfl⟩

/-- C5: when neither camera index yields a handle that opens and returns
a test frame, `start_monitoring` fails with the no-camera exception and
leaves the controller idle: camera handle `None`, no session created,
monitoring flag cleared. -/
theorem start_monitoring_no_camera (s : ServiceState) (env : CameraEnv) (dbOk : Bool)
    (newId : Nat) (hidle : s.is_monitoring = false)
    (hcam : find_available_camera env = none) :
    (start_monitoring s env dbOk newId).1 = .noCameraFailure
    ∧ (start_monitoring s env dbOk newId).2.cap = none
    ∧ (start_monitoring s env dbOk newId).2.monitoring_id = none
    ∧ (start_monitoring s env dbOk newId).2.is_monitoring = false := by
  rw [start_monitoring, hidle]
  simp [hcam]

/-- Witness for C5 at the idle initial state with no camera present. -/
theorem start_monitoring_no_camera_witness :
    initialState.is_monitoring = false
    ∧ find_available_camera envNoCamera = none
    ∧ ((start_monitoring initialState envNoCamera true 8).1 = .noCameraFailure
       ∧ (start_monitoring initialState envNoCamera true 8).2.cap = none
       ∧ (start_monitoring initialState envNoCamera true 8).2.monitoring_id = none
       ∧ (start_monitoring initialState envNoCamera true 8).2.is_monitoring = false) :=
  ⟨rfl, rfl, start_monitoring_no_camera initialState envNoCamera true 8 rfl rfl⟩

/-- C8: stopping an active survey session that recorded zero detections
returns normally with the zero-detection dict: `detection_count = 0`,
`avg_depression_score = 0`, `dominant_emotion = "No Detection"`. -/
theorem stop_survey_zero_detections (s : ServiceState) (fid : String) (sid : Option Nat)
    (order : List String) (hactive : s.survey_monitoring = true)
    (hempty : s.survey_detections = some []) :
    (stop_survey_monitoring s fid sid order).1 = .noData fid sid 0 "No Detection" 0 := by
  rw [stop_survey_monitoring, hactive, hempty]
  simp

/-- Witness for C8 at a concrete running survey with an empty detection
buffer. -/
theorem stop_survey_zero_detections_witness :
    (surveyRunningState []).survey_monitoring = true
    ∧ (surveyRunningState []).survey_detections = some []
    ∧ (stop_survey_monitoring (surveyRunningState []) "A" (some 3) []).1
        = .noData "A" (some 3) 0 "No Detection" 0 :=
  ⟨rfl, rfl, stop_survey_zero_detections (surveyRunningState []) "A" (some 3) [] rfl rfl⟩

/-- C10: when the persistence write fails during a per-subject flush,
`_calculate_and_store_average` returns without raising and leaves the
whole state — in particular that subject's buffer and `last_average_time`
— unchanged, storing nothing; the retained events are exactly what the
next (successful) flush attempt aggregates and stores, and only that
successful store clears the buffer and advances the flush time. -/
theorem flush_failure_preserves_state (s : ServiceState) (fid : String) (t tRetry : ℚ)
    (hbuf : ((s.detection_buffer.lookup fid).getD []) ≠ []) :
    (calculate_and_store_average s fid t false).1 = s
    ∧ (calculate_and_store_average s fid t false).2 = none
    ∧ (calculate_and_store_average (calculate_and_store_average s fid t false).1
         fid tRetry true).2
        = some (calculate_peak_weighted_average
            (((s.detection_buffer.lookup fid).getD []).map Detection.score))
    ∧ ((calculate_and_store_average (calculate_and_store_average s fid t false).1
          fid tRetry true).1.detection_buffer.lookup fid) = some []
    ∧ ((calculate_and_store_average (calculate_and_store_average s fid t false).1
          fid tRetry true).1.last_average_time.lookup fid) = some tRetry := by
  have hne : ((s.detection_buffer.lookup fid).getD []).isEmpty = false := by
    cases hb : ((s.detection_buffer.lookup fid).getD []) with
    | nil => exact absurd hb hbuf
    | cons d ds => rfl
  have hfail : calculate_and_store_average s fid t false = (s, none) := by
    rw [calculate_and_store_average, hne]
    simp
  refine ⟨by rw [hfail], by rw [hfail], ?_, ?_, ?_⟩
  · rw [hfail]
    rw [calculate_and_store_average, hne]
    simp
  · rw [hfail]
    rw [calculate_and_store_average, hne]
    simp [lookup_setEntry]
  · rw [hfail]
    rw [calculate_and_store_average, hne]
    simp [lookup_setEntry]

/-- Witness for C10 at a concrete state with one buffered detection. -/
theorem flush_failure_preserves_state_witness :
    ((bufferedState.detection_buffer.lookup "A").getD [] ≠ [])
    ∧ ((calculate_and_store_average bufferedState "A" 1 false).1 = bufferedState
       ∧ (calculate_and_store_average bufferedState "A" 1 false).2 = none
       ∧ (calculate_and_store_average (calculate_and_store_average bufferedState "A" 1 false).1
            "A" 2 true).2
           = some (calculate_peak_weighted_average
               (((bufferedState.detection_buffer.lookup "A").getD []).map Detection.score))
       ∧ ((calculate_and_store_average (calculate_and_store_average bufferedState "A" 1 false).1
             "A" 2 true).1.detection_buffer.lookup "A") = some []
       ∧ ((calculate_and_store_average (calculate_and_store_average bufferedState "A" 1 false).1
             "A" 2 true).1.last_average_time.lookup "A") = some 2) :=
  ⟨by simp [bufferedState, generalRunningState, initialState, List.lookup],
   flush_failure_preserves_state bufferedState "A" 1 2
     (by simp [bufferedState, generalRunningState, initialState, List.lookup])⟩

/-- C7 counterexample: with two retained events labelled "happy" then
"sad" (a tie in frequency), Python's `max(set(emotions), key=count)` can
return "sad" when the set iterates as `["sad", "happy"]` — a legitimate
iteration order, being a permutation of the distinct labels — whereas the
first-seen tie-break dictates "happy". So `dominant_emotion` is not the
first-seen mode. -/
theorem stop_survey_tiebreak_cex :
    ((stop_survey_monitoring (surveyRunningState [detHappy, detSad]) "A" none
        ["sad", "happy"]).1.dominantLabel = some "sad")
    ∧ (["sad", "happy"] : List String).Perm (([detHappy, detSad].map Detection.emotion).dedup)
    ∧ ([detHappy, detSad].map Detection.emotion).count "sad"
        = ([detHappy, detSad].map Detection.emotion).count "happy"
    ∧ firstSeenMode ([detHappy, detSad].map Detection.emotion) = some "happy"
    ∧ some ("sad" : String) ≠ some "happy" := by
  refine ⟨rfl, ?_, rfl, rfl, by simp⟩
  have hd : (([detHappy, detSad].map Detection.emotion).dedup) = ["happy", "sad"] := rfl
  rw [hd]
  exact List.Perm.swap "happy" "sad" []

/-- C7 amended: for every survey session with at least one retained
detection, `dominant_emotion` is a label of maximal frequency among the
retained events' emotion labels; the tie-break among equally frequent
labels follows the iteration order of the Python set of labels (an
arbitrary permutation of the distinct labels), not necessarily the label
seen first in event order. -/
theorem stop_survey_dominant_is_mode (s : ServiceState) (fid : String) (sid : Option Nat)
    (order : List String) (dets : List Detection)
    (hactive : s.survey_monitoring = true)
    (hdets : s.survey_detections = some dets)
    (hne : dets ≠ [])
    (horder : order.Perm (dets.map Detection.emotion).dedup) :
    ∃ dom, (stop_survey_monitoring s fid sid order).1.dominantLabel = some dom
      ∧ dom ∈ dets.map Detection.emotion
      ∧ ∀ e ∈ dets.map Detection.emotion,
          (dets.map Detection.emotion).count e
            ≤ (dets.map Detection.emotion).count dom := by
  obtain ⟨d, ds, rfl⟩ : ∃ d ds, dets = d :: ds := by
    cases dets with
    | nil => exact absurd rfl hne
    | cons d ds => exact ⟨d, ds, rfl⟩
  have horderne : order ≠ [] := by
    intro hcon
    subst hcon
    have hlen := horder.length_eq
    have hd : ((d :: ds).map Detection.emotion).dedup = [] :=
      List.length_eq_zero.mp hlen.symm
    have hmap : (d :: ds).map Detection.emotion = [] := (List.dedup_eq_nil _).mp hd
    simp at hmap
  obtain ⟨r, hr, hrmem, hrmax⟩ :=
    pyMaxKey_mem_max (fun e => ((d :: ds).map Detection.emotion).count e) horderne
  refine ⟨r, ?_, ?_, ?_⟩
  · rw [stop_survey_monitoring, hactive, hdets]
    show some ((pyMaxKey (fun e => ((d :: ds).map Detection.emotion).count e) order).getD
        "Neutral") = some r
    rw [hr]
    rfl
  · exact List.mem_dedup.mp (horder.subset hrmem)
  · intro e he
    exact hrmax e (horder.mem_iff.mpr (List.mem_dedup.mpr he))

/-- Witness for the amended C7 at a one-event survey session. -/
theorem stop_survey_dominant_is_mode_witness :
    (surveyRunningState [detSad]).survey_monitoring = true
    ∧ ([detSad] : List Detection) ≠ []
    ∧ (["sad"] : List String).Perm (([detSad].map Detection.emotion).dedup)
    ∧ ∃ dom,
        (stop_survey_monitoring (surveyRunningState [detSad]) "A" none
            ["sad"]).1.dominantLabel = some dom
        ∧ dom ∈ [detSad].map Detection.emotion
        ∧ ∀ e ∈ [detSad].map Detection.emotion,
            ([detSad].map Detection.emotion).count e
              ≤ ([detSad].map Detection.emotion).count dom := by
  have hperm : (["sad"] : List String).Perm (([detSad].map Detection.emotion).dedup) := by
    have hd : (([detSad].map Detection.emotion).dedup) = ["sad"] := rfl
    rw [hd]
  exact ⟨rfl, by simp,
    hperm,
    stop_survey_dominant_is_mode (surveyRunningState [detSad]) "A" none ["sad"] [detSad]
      rfl rfl (by simp) hperm⟩

/-- C4 counterexample: with two stored rows for subject "A" on the same
day — score 0.2 written by session 1 and score 0.8 written by session 2 —
stopping session 2 persists the calendar-day average 0.5 for "A", while
the mean of session 2's own flushed scores is 0.8. The persisted value is
not the mean of that session's values alone. -/
theorem stop_monitoring_day_not_session_cex :
    stop_monitoring_daily_averages [rowA1, rowA2] 2 0 = [("A", 1/2)]
    ∧ sqlAvg (sessionScoresFor [rowA1, rowA2] 2 "A") = some (4/5)
    ∧ ((1:ℚ)/2) ≠ 4/5 := by
  refine ⟨?_, ?_, by norm_num⟩
  · norm_num [stop_monitoring_daily_averages, distinctForceIds, dailyScoresFor, sqlAvg,
      listMean, rowA1, rowA2, List.filter, List.filterMap, List.dedup]
  · norm_num [sessionScoresFor, sqlAvg, listMean, rowA1, rowA2, List.filter_cons]

/-- C4 amended: the per-subject value `stop_monitoring` persists is the
arithmetic mean of ALL stored window scores for that subject dated the
stop day, across sessions; it equals the mean of the session's own
flushed scores exactly when the subject's same-day stored scores coincide
with the session's stored scores. -/
theorem stop_monitoring_persists_session_average (rows : List DetectionRow) (mid today : Nat)
    (fid : String) (a : ℚ)
    (hmem : (fid, a) ∈ stop_monitoring_daily_averages rows mid today)
    (hsame : dailyScoresFor rows fid today = sessionScoresFor rows mid fid) :
    sqlAvg (sessionScoresFor rows mid fid) = some a := by
  obtain ⟨f, hf, hmatch⟩ := List.mem_filterMap.mp hmem
  rcases hv : sqlAvg (dailyScoresFor rows f today) with _ | v
  · rw [hv] at hmatch
    cases hmatch
  · rw [hv] at hmatch
    simp only [Option.some.injEq, Prod.mk.injEq] at hmatch
    obtain ⟨rfl, rfl⟩ := hmatch
    rw [← hsame]
    exact hv

/-- Witness for the amended C4: a day whose only stored scores for "A"
are session 2's own. -/
theorem stop_monitoring_persists_session_average_witness :
    (("A", (4:ℚ)/5) ∈ stop_monitoring_daily_averages [rowA2] 2 0)
    ∧ dailyScoresFor [rowA2] "A" 0 = sessionScoresFor [rowA2] 2 "A"
    ∧ sqlAvg (sessionScoresFor [rowA2] 2 "A") = some (4/5) := by
  have hmem : ("A", (4:ℚ)/5) ∈ stop_monitoring_daily_averages [rowA2] 2 0 := by
    norm_num [stop_monitoring_daily_averages, distinctForceIds, dailyScoresFor, sqlAvg,
      listMean, rowA2, List.filter, List.filterMap, List.dedup]
  have hsame : dailyScoresFor [rowA2] "A" 0 = sessionScoresFor [rowA2] 2 "A" := by
    simp [dailyScoresFor, sessionScoresFor, rowA2, List.filter]
  exact ⟨hmem, hsame,
    stop_monitoring_persists_session_average [rowA2] 2 0 "A" (4/5) hmem hsame⟩

/-- C9: the visual peak-weighted aggregation is not associative: there are
non-empty score lists A and B for which aggregating the concatenation
differs from aggregating the two sub-window results. Concretely,
A = [0.45, 0.45, 0.9] and B = [0.9] give 0.8325 for the union but 0.855
for the combination of the sub-window results 0.81 and 0.9. -/
theorem pwa_not_associative :
    ∃ A B : List ℚ, A ≠ [] ∧ B ≠ [] ∧
      calculate_peak_weighted_average (A ++ B) ≠
        calculate_peak_weighted_average
          [calculate_peak_weighted_average A, calculate_peak_weighted_average B] := by
  refine ⟨[45/100, 45/100, 9/10], [9/10], by simp, by simp, ?_⟩
  have hA : calculate_peak_weighted_average [45/100, 45/100, 9/10] = 81/100 := by
    norm_num [calculate_peak_weighted_average, pyAbs, List.filter]
  have hB : calculate_peak_weighted_average [(9:ℚ)/10] = 9/10 := by
    norm_num [calculate_peak_weighted_average]
  have hcat : calculate_peak_weighted_average ([45/100, 45/100, 9/10] ++ [9/10]) = 333/400 := by
    norm_num [calculate_peak_weighted_average, pyAbs, List.filter]
  have hpair : calculate_peak_weighted_average [81/100, 9/10] = 171/200 := by
    norm_num [calculate_peak_weighted_average, pyAbs, List.filter]
  rw [hcat, hA, hB, hpair]
  norm_num

end MHMS
